import Mathlib

/-!
# Verification of the signal-relay MCP gateway

A shallow embedding, in Lean 4, of the SocioLogic MCP server (a Cloudflare
Workers JSON-RPC "Model Context Protocol" gateway) together with proofs about
its externally observable behaviour.

Embedded source files:
* the Workers entry point (`src/unnamed/part_001`, the revision of
  `src/index.ts` whose `MCPHandler` dispatches all six RPC methods
  `initialize`, `tools/list`, `tools/call`, `prompts/list`, `resources/list`
  and `ping`, and whose `executeTool` covers the 19 declared tools;
  `src/src/index.ts` holds an earlier revision of the same module without the
  `prompts/list` / `resources/list` cases and the x402 / web-research tools);
* `src/tools.ts` (the matching revision of the tool definitions, i.e. the one
  exporting `CreatePersonaWithPaymentSchema`, `GetX402DiscoverySchema` and the
  web-research schemas);
* `src/api-client.ts` (`SocioLogicClient`).

Modelling conventions:
* JSON numbers are modelled as integers (`Int`).  Every numeric bound in the
  embedded tool schemas is integral and every numeric value appearing in a
  verified statement is integral, so nothing proved here depends on
  non-integral numbers.
* JavaScript `undefined` (an absent object key) is `Option.none`; JSON `null`
  is `Json.null`.
* Effects are explicit: the outcome of each outbound `fetch` is supplied by an
  `oracle : RestCall → FetchOutcome` argument, and every function that can
  perform outbound calls also returns the list of calls it performed, in
  order.  `Date.now()` is threaded through the configuration as `now`.
* `JSON.parse` is environment-provided in the Workers runtime; the worker
  entry point is therefore parameterised by a parse function
  `jp : String → Option Json` (`none` models a parse exception).
-/

namespace SignalRelay

/-- A JSON value.  Numbers are modelled as integers (see the header comment). -/
inductive Json where
  | null : Json
  | bool : Bool → Json
  | num : Int → Json
  | str : String → Json
  | arr : List Json → Json
  | obj : List (String × Json) → Json

/-- Look a key up in a JSON object field list (first binding wins, mirroring
the output of `JSON.parse`, which keeps one binding per key). -/
def jGet (fields : List (String × Json)) (k : String) : Option Json :=
  (fields.find? (fun p => p.1 = k)).map (fun p => p.2)

/-- Field lookup on a `Json` value: `none` models JavaScript `undefined`. -/
def Json.get : Json → String → Option Json
  | .obj fields, k => jGet fields k
  | _, _ => none

/-- The `typeof`-style name used in zod mismatch messages. -/
def Json.typeName : Json → String
  | .null => "null"
  | .bool _ => "boolean"
  | .num _ => "number"
  | .str _ => "string"
  | .arr _ => "array"
  | .obj _ => "object"

-- ============================================
-- JavaScript string primitives used by the source
-- ============================================

/-- JavaScript whitespace for `String.prototype.trim` (the characters that
occur in this development; the full JS set also has exotic Unicode spaces). -/
def jsWhite (c : Char) : Bool :=
  c = ' ' ∨ c = '\t' ∨ c = '\n' ∨ c = '\r'

/-- `String.prototype.trim`. -/
def jsTrim (s : String) : String :=
  ⟨(s.data.dropWhile jsWhite).reverse.dropWhile jsWhite |>.reverse⟩

/-- Does `pat` occur at the head of `s`? -/
def listLeads : List Char → List Char → Bool
  | [], _ => true
  | _ :: _, [] => false
  | p :: ps, c :: cs => p = c && listLeads ps cs

/-- `String.prototype.replace(pat, rep)` with a string pattern: replace the
FIRST occurrence of `pat` anywhere in the string (not only a leading one). -/
def listReplaceFirst (pat rep : List Char) : List Char → List Char
  | [] => []
  | c :: cs =>
    if listLeads pat (c :: cs) then rep ++ (c :: cs).drop pat.length
    else c :: listReplaceFirst pat rep cs

/-- `s.replace(pat, rep)` (string pattern ⇒ first occurrence only). -/
def jsReplaceFirst (s pat rep : String) : String :=
  if pat.data = [] then ⟨rep.data ++ s.data⟩
  else ⟨listReplaceFirst pat.data rep.data s.data⟩

/-- UTF-16 length of a string: what JavaScript `String.prototype.length`
returns (code points above U+FFFF take two code units). -/
def utf16Len (s : String) : Nat :=
  (s.data.map (fun c => if c.toNat < 0x10000 then 1 else 2)).sum

/-- UTF-8 byte length of a string: the wire size of the request body
(1 byte below U+0080, 2 below U+0800, 3 below U+10000, else 4). -/
def byteLen (s : String) : Nat :=
  (s.data.map (fun c => if c.toNat < 0x80 then 1 else if c.toNat < 0x800 then 2
                        else if c.toNat < 0x10000 then 3 else 4)).sum

/-- Is the string pure ASCII?  For ASCII bodies the UTF-16 length and the
UTF-8 byte length coincide. -/
def allAscii (s : String) : Bool :=
  s.data.all (fun c => c.toNat < 128)

/-- `parseInt(s, 10)`: skip leading whitespace, optional sign, then leading
decimal digits; `none` models `NaN` (no digits).  Trailing junk is ignored. -/
def jsParseInt (s : String) : Option Int :=
  let t := s.data.dropWhile jsWhite
  let (neg, t) : Bool × List Char :=
    match t with
    | '-' :: rest => (true, rest)
    | '+' :: rest => (false, rest)
    | _ => (false, t)
  let digits := t.takeWhile Char.isDigit
  if digits = [] then none
  else
    let n : Nat := digits.foldl (fun acc c => acc * 10 + (c.toNat - 48)) 0
    some (if neg then -(n : Int) else (n : Int))

/-- One hexadecimal digit, upper case. -/
def hexDigit (n : Nat) : Char :=
  if n < 10 then Char.ofNat (48 + n) else Char.ofNat (55 + n)

/-- `encodeURIComponent`: unreserved characters pass through, everything else
is percent-encoded byte-wise from its UTF-8 encoding. -/
def encodeURIComponent (s : String) : String :=
  let unreserved (c : Char) : Bool :=
    c.isAlphanum ∨ c = '-' ∨ c = '_' ∨ c = '.' ∨ c = '!' ∨ c = '~' ∨
      c = '*' ∨ c = '\x27' ∨ c = '(' ∨ c = ')'
  let encByte (b : Nat) : List Char := ['%', hexDigit (b / 16), hexDigit (b % 16)]
  let encChar (c : Char) : List Char :=
    if unreserved c then [c]
    else (String.utf8EncodeChar c).foldr (fun b acc => encByte b.toNat ++ acc) []
  ⟨s.data.foldr (fun c acc => encChar c ++ acc) []⟩

/-- The string interpolation JavaScript applies in a template literal; used
for `Unknown tool: ${name}` when `name` is not a string. -/
def jsDisplay : Option Json → String
  | none => "undefined"
  | some .null => "null"
  | some (.bool b) => if b then "true" else "false"
  | some (.num n) => toString n
  | some (.str s) => s
  | some (.arr _) => ""
  | some (.obj _) => "[object Object]"

/-- `String(value)` conversion used when writing query parameters. -/
def jsString : Json → String
  | .null => "null"
  | .bool b => if b then "true" else "false"
  | .num n => toString n
  | .str s => s
  | .arr _ => ""
  | .obj _ => "[object Object]"

-- ============================================
-- SocioLogic API client (src/api-client.ts)
-- ============================================

/-- `SocioLogicConfig`, extended with an explicit clock value standing for
`Date.now()` (the embedding is pure, so the clock is threaded through). -/
structure Config where
  apiUrl : String
  apiKey : String
  now : Nat := 0

/-- The `SocioLogicClient` constructor removes one trailing slash from the
API URL (`config.apiUrl.replace(/\/$/, "")`). -/
def stripTrailingSlash (s : String) : String :=
  match s.data.reverse with
  | '/' :: rest => ⟨rest.reverse⟩
  | _ => s

/-- The x402 payment header content after the defaults of `request` are
applied (`scheme || "exact"`, `network || "eip155:8453"`).  The JS code
base64-encodes the JSON serialization of this record into the `X-Payment`
header; the embedding keeps the structured value, since no verified claim
concerns the serialized form. -/
structure XPaymentHeader where
  scheme : String
  network : String
  payload : String

/-- One outbound HTTP call, as issued by the client: everything the claims
observe about an outgoing `fetch`. -/
structure RestCall where
  method : String
  /-- Path relative to the API base URL, query string excluded. -/
  path : String
  /-- Query parameters actually set (a `(key, String(value))` list, in the
  order `Object.entries` walks the parsed argument object). -/
  query : List (String × String)
  /-- Request body (`none` for GET requests and body-less calls). -/
  body : Option Json
  /-- The `X-API-Key` header (`none` for the x402 discovery fetch, which the
  source issues without credentials). -/
  apiKeyHeader : Option String
  /-- The `X-Payment` header, when an x402 payment was supplied. -/
  xPayment : Option XPaymentHeader
  /-- The `AbortController` timeout, in ms (`none` for the x402 discovery
  fetch, which has no timeout). -/
  timeoutMs : Option Nat

/-- The error object carried by an `ApiResponse` (`code`/`message` plus the
402-payment extras). -/
structure ErrInfo where
  code : String
  message : String
  x402 : Option Json := none
  fallback : Option Json := none

/-- `ApiResponse<T>`: the uniform result shape of the backend client. -/
structure ApiResponse where
  data : Option Json := none
  error : Option ErrInfo := none
  meta : Option Json := none

/-- The body the backend sent along with a non-2xx status, as far as
`request` inspects it: `none` when the body was not JSON or had no `error`
field (both cases fall back to the status-derived code and message), and
otherwise the optional `code`/`message`/`x402`/`fallback` of its `error`
field. -/
structure HttpErrorBody where
  code : Option String
  message : Option String
  x402 : Option Json := none
  fallback : Option Json := none

/-- The outcome of one `fetch`, supplied by the environment oracle. -/
inductive FetchOutcome where
  /-- `response.ok` and the JSON body parsed as an `ApiResponse`. -/
  | success : ApiResponse → FetchOutcome
  /-- A non-2xx response: status, `statusText`, inspected error body. -/
  | httpError : Nat → String → Option HttpErrorBody → FetchOutcome
  /-- The `AbortController` fired (`error.name === "AbortError"`). -/
  | abort : FetchOutcome
  /-- Any other rejection of `fetch`; the payload is `error.message`. -/
  | networkError : String → FetchOutcome

/-- The `try`/`catch` tail of `SocioLogicClient.request`: normalize a fetch
outcome into an `ApiResponse`.  Nothing is thrown and nothing is retried. -/
def requestOutcome (timeoutMs : Nat) : FetchOutcome → ApiResponse
  | .success r => r
  | .httpError status statusText errBody =>
    let baseMsg := "HTTP " ++ toString status ++ ": " ++ statusText
    let baseCode := "HTTP_" ++ toString status
    let msg := match errBody with
      | some b => b.message.getD baseMsg
      | none => baseMsg
    let code := match errBody with
      | some b => b.code.getD baseCode
      | none => baseCode
    let x402Info := if status = 402 then (errBody.bind (fun b => b.x402)) else none
    let fallbackInfo := if status = 402 then (errBody.bind (fun b => b.fallback)) else none
    { error := some { code := code, message := msg, x402 := x402Info, fallback := fallbackInfo } }
  | .abort =>
    { error := some { code := "TIMEOUT",
                      message := "Request timed out after " ++ toString timeoutMs ++ "ms" } }
  | .networkError msg =>
    { error := some { code := "NETWORK_ERROR", message := msg } }

/-- Build the single `fetch` call `SocioLogicClient.request` performs. -/
def mkRestCall (cfg : Config) (method path : String) (body : Option Json)
    (query : List (String × String)) (timeoutMs : Nat)
    (xp : Option XPaymentHeader) : RestCall :=
  { method := method
    path := path
    query := query
    body := if method = "GET" then none else body
    apiKeyHeader := some cfg.apiKey
    xPayment := xp
    timeoutMs := some timeoutMs }

/-- `SocioLogicClient.request`: issue exactly one `fetch` (recorded in the
returned call list) and normalize its outcome; never throws. -/
def clientRequest (cfg : Config) (method path : String) (body : Option Json)
    (query : List (String × String)) (timeoutMs : Nat)
    (xp : Option XPaymentHeader) (oracle : RestCall → FetchOutcome) :
    ApiResponse × List RestCall :=
  let c := mkRestCall cfg method path body query timeoutMs xp
  (requestOutcome timeoutMs (oracle c), [c])

/-- The `fetch` call of `getX402Discovery`: no API key, no timeout. -/
def x402DiscoveryCall : RestCall :=
  { method := "GET"
    path := "/.well-known/x402.json"
    query := []
    body := none
    apiKeyHeader := none
    xPayment := none
    timeoutMs := none }

/-- `SocioLogicClient.getX402Discovery`: a bare `fetch` with its own outcome
normalization (404 becomes `X402_NOT_ENABLED`). -/
def getX402Discovery (oracle : RestCall → FetchOutcome) :
    ApiResponse × List RestCall :=
  let resp : ApiResponse :=
    match oracle x402DiscoveryCall with
    | .success r => r
    | .httpError status statusText _ =>
      if status = 404 then
        { error := some { code := "X402_NOT_ENABLED",
                          message := "x402 payments are not enabled for this platform" } }
      else
        { error := some { code := "HTTP_" ++ toString status,
                          message := "Failed to fetch x402 discovery: " ++ statusText } }
    | .abort =>
      { error := some { code := "NETWORK_ERROR",
                        message := "Failed to fetch x402 discovery" } }
    | .networkError msg =>
      { error := some { code := "NETWORK_ERROR", message := msg } }
  (resp, [x402DiscoveryCall])

/-- Re-encode an `ErrInfo` as JSON (for embedding tool results in MCP
responses). -/
def errInfoToJson (e : ErrInfo) : Json :=
  .obj ([("code", .str e.code), ("message", .str e.message)]
    ++ (match e.x402 with | some j => [("x402", j)] | none => [])
    ++ (match e.fallback with | some j => [("fallback", j)] | none => []))

/-- Re-encode an `ApiResponse` as JSON.  `JSON.stringify` drops `undefined`
fields, so absent members are omitted. -/
def apiResponseToJson (r : ApiResponse) : Json :=
  .obj ((match r.data with | some j => [("data", j)] | none => [])
    ++ (match r.error with | some e => [("error", errInfoToJson e)] | none => [])
    ++ (match r.meta with | some j => [("meta", j)] | none => []))

-- ============================================
-- Tool argument schemas (src/tools.ts) as data, and the zod-style validator
-- ============================================

/-- String format refinements used by the tool schemas (`z.string().uuid()`,
`z.string().url()`). -/
inductive StrFormat where
  | plain
  | uuid
  | url

/-- Whether a declared field is required, optional, or optional with a
declared default (`.default(v)`). -/
inductive Presence where
  | required
  | optional
  | withDefault : Json → Presence

/-- The zod combinators the tool schemas use, as data.  A schema object is a
`List (String × Presence × FieldTy)` in declaration order. -/
inductive FieldTy where
  /-- `z.string()` with optional `.min`/`.max` length bounds (in UTF-16 code
  units, as JavaScript counts string length) and format refinement. -/
  | str : Option Nat → Option Nat → StrFormat → FieldTy
  /-- `z.number().int()` with optional `.min`/`.max` and `.positive()`.  All
  numbers in the embedding are integers, so `.int()` itself needs no check. -/
  | int : Option Int → Option Int → Bool → FieldTy
  /-- `z.boolean()`. -/
  | boolTy : FieldTy
  /-- `z.enum([...])`. -/
  | enumTy : List String → FieldTy
  /-- `z.array(elem)` with optional `.min`/`.max` length bounds. -/
  | arr : FieldTy → Option Nat → Option Nat → FieldTy
  /-- `z.object({...})`. -/
  | objTy : List (String × Presence × FieldTy) → FieldTy

/-- A zod issue: the field path and the message. -/
abbrev ZErr := List String × String

/-- Hexadecimal character test for the uuid format. -/
def isHexChar (c : Char) : Bool :=
  c.isDigit || ('a' ≤ c && c ≤ 'f') || ('A' ≤ c && c ≤ 'F')

/-- Split a character list at every occurrence of a separator character. -/
def listSplitOnChar (sep : Char) : List Char → List (List Char)
  | [] => [[]]
  | c :: cs =>
    if c = sep then [] :: listSplitOnChar sep cs
    else
      match listSplitOnChar sep cs with
      | [] => [[c]]
      | g :: gs => (c :: g) :: gs

/-- The `z.string().uuid()` refinement: 8-4-4-4-12 hexadecimal groups. -/
def isUuid (s : String) : Bool :=
  match listSplitOnChar '-' s.data with
  | [a, b, c, d, e] =>
    a.length = 8 && b.length = 4 && c.length = 4 && d.length = 4
      && e.length = 12 && (a ++ b ++ c ++ d ++ e).all isHexChar
  | _ => false

/-- Split a character list around the first occurrence of a substring. -/
def splitFirstSub (pat : List Char) : List Char → Option (List Char × List Char)
  | [] => if pat = [] then some ([], []) else none
  | c :: cs =>
    if listLeads pat (c :: cs) then some ([], (c :: cs).drop pat.length)
    else (splitFirstSub pat cs).map (fun p => (c :: p.1, p.2))

/-- The `z.string().url()` refinement (zod delegates to `new URL(s)`; the
embedding checks for an alphabetic scheme followed by `://` and a nonempty
remainder, which classifies every value occurring in this development the
same way `new URL` does). -/
def isUrlish (s : String) : Bool :=
  match splitFirstSub "://".data s.data with
  | some (scheme, rest) =>
    (!scheme.isEmpty) && scheme.all Char.isAlpha && (!rest.isEmpty)
  | none => false

/-- Scalar checks of one `FieldTy` against one present value.  Returns the
zod issues (type mismatch first, then each failed refinement, in combinator
order). -/
def scalarIssues (path : List String) : FieldTy → Json → List ZErr
  | .str minL maxL fmt, v =>
    match v with
    | .str s =>
      (match minL with
        | some n => if utf16Len s < n then
            [(path, "String must contain at least " ++ toString n ++ " character(s)")] else []
        | none => [])
      ++ (match maxL with
        | some n => if utf16Len s > n then
            [(path, "String must contain at most " ++ toString n ++ " character(s)")] else []
        | none => [])
      ++ (match fmt with
        | .plain => []
        | .uuid => if isUuid s then [] else [(path, "Invalid uuid")]
        | .url => if isUrlish s then [] else [(path, "Invalid url")])
    | other => [(path, "Expected string, received " ++ other.typeName)]
  | .int minV maxV pos, v =>
    match v with
    | .num n =>
      (match minV with
        | some m => if n < m then
            [(path, "Number must be greater than or equal to " ++ toString m)] else []
        | none => [])
      ++ (match maxV with
        | some m => if n > m then
            [(path, "Number must be less than or equal to " ++ toString m)] else []
        | none => [])
      ++ (if pos ∧ n ≤ 0 then [(path, "Number must be greater than 0")] else [])
    | other => [(path, "Expected number, received " ++ other.typeName)]
  | .boolTy, v =>
    match v with
    | .bool _ => []
    | other => [(path, "Expected boolean, received " ++ other.typeName)]
  | .enumTy opts, v =>
    match v with
    | .str s => if opts.contains s then [] else [(path, "Invalid enum value")]
    | _ => [(path, "Invalid enum value")]
  | .arr _ _ _, _ => []
  | .objTy _, _ => []

/-!
`vTy` validates a value against a type, `vFields` an argument list against an
object shape, and `vList` the elements of an array.  Each returns all issues
plus the zod output value (declared keys only, defaults filled in).  The fuel
argument bounds the SCHEMA depth, not the input depth: every schema in this
file is finite data, so the generous fuel passed at the top level is never
exhausted.
-/

mutual

/-- Validate one value against one `FieldTy`. -/
def vTy : Nat → List String → FieldTy → Json → List ZErr × Json
  | 0, path, _, v => ([(path, "depth limit exceeded")], v)
  | Nat.succ fuel, path, ty, v =>
    match ty with
    | .arr elem minL maxL =>
      match v with
      | .arr xs =>
        let lenIssues :=
          (match minL with
            | some n => if xs.length < n then
                [(path, "Array must contain at least " ++ toString n ++ " element(s)")] else []
            | none => [])
          ++ (match maxL with
            | some n => if xs.length > n then
                [(path, "Array must contain at most " ++ toString n ++ " element(s)")] else []
            | none => [])
        let (elemIssues, outs) := vList fuel path elem 0 xs
        (lenIssues ++ elemIssues, .arr outs)
      | other => ([(path, "Expected array, received " ++ other.typeName)], v)
    | .objTy specs =>
      match v with
      | .obj fields =>
        let (issues, outs) := vFields fuel path specs fields
        (issues, .obj outs)
      | other => ([(path, "Expected object, received " ++ other.typeName)], v)
    | scalar => (scalarIssues path scalar v, v)

/-- See `vTy`. -/
def vFields : Nat → List String → List (String × Presence × FieldTy) →
    List (String × Json) → List ZErr × List (String × Json)
  | 0, path, _, _ => ([(path, "depth limit exceeded")], [])
  | Nat.succ _, _, [], _ => ([], [])
  | Nat.succ fuel, path, (n, pres, ty) :: rest, fields =>
    let (restIssues, restOut) := vFields fuel path rest fields
    match jGet fields n with
    | some v =>
      let (issues, out) := vTy fuel (path ++ [n]) ty v
      (issues ++ restIssues, (n, out) :: restOut)
    | none =>
      match pres with
      | .required => (((path ++ [n]), "Required") :: restIssues, restOut)
      | .optional => (restIssues, restOut)
      | .withDefault d => (restIssues, (n, d) :: restOut)

/-- See `vTy`. -/
def vList : Nat → List String → FieldTy → Nat → List Json →
    List ZErr × List Json
  | 0, path, _, _, _ => ([(path, "depth limit exceeded")], [])
  | Nat.succ _, _, _, _, [] => ([], [])
  | Nat.succ fuel, path, ty, i, x :: xs =>
    let (issues, out) := vTy fuel (path ++ [toString i]) ty x
    let (restIssues, restOut) := vList fuel path ty (i + 1) xs
    (issues ++ restIssues, out :: restOut)

end

/-- `schema.safeParse(args)` for an object schema: `undefined` and non-object
inputs are rejected at the root path, and otherwise the shape is validated
field by field.  `Except.ok` carries the zod output (declared keys in
declaration order, defaults filled in); `Except.error` carries all issues. -/
def zodSafeParse (specs : List (String × Presence × FieldTy))
    (args : Option Json) : Except (List ZErr) Json :=
  match args with
  | none => .error [([], "Required")]
  | some v =>
    match vTy 1000 [] (.objTy specs) v with
    | ([], out) => .ok out
    | (issues, _) => .error issues

/-- The message `safeParseArgs` throws on validation failure: each issue is
prefixed with its dotted path (no prefix at the root path), and the list is
joined with `", "` after the fixed `Invalid parameters: ` lead. -/
def invalidParamsMsg (errs : List ZErr) : String :=
  "Invalid parameters: " ++ String.intercalate ", "
    (errs.map (fun e =>
      (if e.1.length > 0 then String.intercalate "." e.1 ++ ": " else "") ++ e.2))

-- ============================================
-- The tool schemas of src/tools.ts, in declaration order
-- ============================================

/-- An object schema: declared fields in declaration order. -/
abbrev Schema := List (String × Presence × FieldTy)

def fidelityTiers : List String := ["standard", "enhanced", "premium", "ultra"]

def ListPersonasSchema : Schema :=
  [("visibility", .withDefault (.str "public"), .enumTy ["public", "private", "all"]),
   ("category", .optional, .str none none .plain),
   ("fidelity_tier", .optional, .enumTy fidelityTiers),
   ("search", .optional, .str none none .plain),
   ("page", .withDefault (.num 1), .int none none true),
   ("per_page", .withDefault (.num 20), .int (some 1) (some 100) false)]

def GetPersonaSchema : Schema :=
  [("slug", .required, .str (some 1) none .plain)]

def CreatePersonaSchema : Schema :=
  [("description", .required, .str (some 10) (some 2000) .plain),
   ("fidelity_tier", .withDefault (.str "enhanced"), .enumTy fidelityTiers)]

def InterviewPersonaSchema : Schema :=
  [("slug", .required, .str (some 1) none .plain),
   ("message", .required, .str (some 1) (some 4000) .plain),
   ("conversation_id", .optional, .str none none .uuid),
   ("include_memory", .withDefault (.bool true), .boolTy),
   ("save_conversation", .withDefault (.bool true), .boolTy)]

def GetPersonaMemoriesSchema : Schema :=
  [("slug", .required, .str (some 1) none .plain),
   ("query", .optional, .str none none .plain),
   ("limit", .withDefault (.num 10), .int (some 1) (some 50) false)]

def ListCampaignsSchema : Schema :=
  [("status", .optional, .enumTy ["draft", "running", "completed", "failed"]),
   ("limit", .withDefault (.num 20), .int (some 1) (some 100) false),
   ("offset", .withDefault (.num 0), .int (some 0) none false),
   ("include_interviews", .withDefault (.bool false), .boolTy)]

def GetCampaignSchema : Schema :=
  [("id", .required, .str none none .uuid)]

/-- The shape of one entry of `CreateCampaignSchema`'s `questions` array. -/
def questionFields : Schema :=
  [("id", .required, .str none none .plain),
   ("text", .required, .str (some 1) (some 1000) .plain),
   ("type", .withDefault (.str "open"), .enumTy ["open", "scale", "multiple_choice"]),
   ("required", .withDefault (.bool true), .boolTy),
   ("options", .optional, .arr (.str none none .plain) none none)]

/-- The shape of `CreateCampaignSchema`'s optional `research_context`. -/
def researchContextFields : Schema :=
  [("subjectName", .required, .str (some 1) (some 200) .plain),
   ("subjectDescription", .required, .str (some 50) (some 2000) .plain),
   ("currentChallenge", .required, .str (some 20) (some 1000) .plain),
   ("areasToExplore", .optional, .arr (.str none (some 500) .plain) none (some 10)),
   ("knownIssues", .optional, .arr (.str none (some 500) .plain) none (some 10))]

def CreateCampaignSchema : Schema :=
  [("name", .required, .str (some 1) (some 200) .plain),
   ("description", .optional, .str none (some 2000) .plain),
   ("questions", .required, .arr (.objTy questionFields) (some 1) (some 20)),
   ("persona_brief", .optional, .str (some 10) (some 2000) .plain),
   ("persona_count", .withDefault (.num 10), .int (some 1) (some 50) false),
   ("fidelity_tier", .withDefault (.str "enhanced"), .enumTy fidelityTiers),
   ("existing_persona_ids", .optional, .arr (.str none none .uuid) none none),
   ("focus_group_ids", .optional, .arr (.str none none .uuid) none none),
   ("research_context", .optional, .objTy researchContextFields)]

def ExecuteCampaignSchema : Schema :=
  [("id", .required, .str none none .uuid)]

def ExportCampaignSchema : Schema :=
  [("id", .required, .str none none .uuid),
   ("format", .withDefault (.str "pdf"), .enumTy ["pdf", "json"])]

def ListFocusGroupsSchema : Schema :=
  [("limit", .withDefault (.num 20), .int (some 1) (some 100) false),
   ("offset", .withDefault (.num 0), .int (some 0) none false)]

def GetFocusGroupSchema : Schema :=
  [("id", .required, .str none none .uuid)]

def CreateFocusGroupSchema : Schema :=
  [("name", .required, .str (some 1) (some 200) .plain),
   ("description", .optional, .str none (some 2000) .plain)]

def AddPersonasToFocusGroupSchema : Schema :=
  [("focus_group_id", .required, .str none none .uuid),
   ("persona_ids", .required, .arr (.str none none .uuid) (some 1) none)]

def GetCreditsBalanceSchema : Schema := []

def X402PaymentSchema : Schema :=
  [("payload", .required, .str (some 1) none .plain),
   ("scheme", .optional, .str none none .plain),
   ("network", .optional, .str none none .plain)]

def CreatePersonaWithPaymentSchema : Schema :=
  CreatePersonaSchema ++ [("x402_payment", .optional, .objTy X402PaymentSchema)]

def InterviewPersonaWithPaymentSchema : Schema :=
  InterviewPersonaSchema ++ [("x402_payment", .optional, .objTy X402PaymentSchema)]

def GetX402DiscoverySchema : Schema := []

def ScrapeUrlSchema : Schema :=
  [("url", .required, .str none none .url),
   ("formats", .withDefault (.arr [.str "markdown"]),
     .arr (.enumTy ["markdown", "html", "links"]) none none),
   ("only_main_content", .withDefault (.bool true), .boolTy)]

def SearchWebSchema : Schema :=
  [("query", .required, .str (some 1) (some 500) .plain),
   ("limit", .withDefault (.num 5), .int (some 1) (some 10) false)]

def ResearchTopicSchema : Schema :=
  [("topic", .required, .str (some 1) (some 500) .plain),
   ("source_count", .withDefault (.num 3), .int (some 1) (some 5) false)]

def GetCompanyInfoSchema : Schema :=
  [("url", .required, .str none none .url)]

-- ============================================
-- Tool execution (MCPHandler.executeTool and the client methods it calls)
-- ============================================

/-- Read a string field out of a validated argument object.  Validation
guarantees presence and type wherever this is used (the TypeScript source
relies on the inferred types the same way). -/
def pStr (parsed : Json) (k : String) : String :=
  match parsed.get k with
  | some (.str s) => s
  | _ => ""

/-- Read a field out of a validated argument object as JSON. -/
def pJ (parsed : Json) (k : String) : Json :=
  (parsed.get k).getD .null

/-- Query parameters from a whole parsed argument object: `request` sets one
parameter per defined entry, `String(value)`-converted. -/
def qObj : Json → List (String × String)
  | .obj fields => fields.map (fun p => (p.1, jsString p.2))
  | _ => []

/-- Query parameters from selected keys of a parsed argument object;
`undefined` entries are skipped. -/
def qFields (parsed : Json) (keys : List String) : List (String × String) :=
  keys.filterMap (fun k => (parsed.get k).map (fun v => (k, jsString v)))

/-- `value || default` for the optional x402 scheme/network strings. -/
def jsOrStr (o : Option Json) (d : String) : String :=
  match o with
  | some (.str s) => if s = "" then d else s
  | _ => d

/-- The x402 payment config extracted from validated arguments, with the
defaults `request` applies (`scheme || "exact"`, `network || "eip155:8453"`). -/
def mkXp (parsed : Json) : Option XPaymentHeader :=
  match parsed.get "x402_payment" with
  | some p => some { payload := pStr p "payload"
                     scheme := jsOrStr (p.get "scheme") "exact"
                     network := jsOrStr (p.get "network") "eip155:8453" }
  | none => none

/-- What a tool does after its arguments validated: one authenticated REST
call through `SocioLogicClient.request`, the credential-less x402 discovery
fetch, or a pure result with no outbound call at all (the PDF export). -/
inductive ToolAction where
  | api : String → String → Option Json → List (String × String) → Nat →
      Option XPaymentHeader → ToolAction
  | x402Disco : ToolAction
  | pureResult : Json → ToolAction

/-- The pure value `exportCampaign` returns for the `"pdf"` format: the
export URL is handed back and NO backend call is made. -/
def exportPdfResult (cfg : Config) (id : String) : Json :=
  .obj [("data", .obj
          [("export_url", .str (cfg.apiUrl ++ "/api/v1/campaigns/"
              ++ encodeURIComponent id ++ "/export?format=pdf")),
           ("format", .str "pdf"),
           ("message", .str ("Use the export_url to download the PDF report."
              ++ " Include your API key in the X-API-Key header."))]),
        ("meta", .obj [("request_id", .str ("mcp_" ++ toString cfg.now))])]

/-- Run a `ToolAction`: returns the tool result (as JSON) and the outbound
calls performed. -/
def performAction (cfg : Config) (oracle : RestCall → FetchOutcome) :
    ToolAction → Json × List RestCall
  | .api method path body query timeoutMs xp =>
    let pr := clientRequest cfg method path body query timeoutMs xp oracle
    (apiResponseToJson pr.1, pr.2)
  | .x402Disco =>
    let pr := getX402Discovery oracle
    (apiResponseToJson pr.1, pr.2)
  | .pureResult j => (j, [])

/-- One MCP tool: its name, argument schema, and what it does with validated
arguments.  This pairs each case of `executeTool`'s switch with the schema
that case passes to `safeParseArgs` and the client method it invokes.
(The static `description` and `annotations` metadata of `TOOL_DEFINITIONS`
are not embedded: no verified claim concerns them.) -/
structure ToolDef where
  name : String
  schema : Schema
  run : Config → Json → ToolAction

/-- The declared tool set, in declaration order (20 tools). -/
def TOOL_DEFINITIONS : List ToolDef :=
  [{ name := "sociologic_list_personas"
     schema := ListPersonasSchema
     run := fun _ parsed => .api "GET" "/api/v1/personas" none (qObj parsed) 30000 none },
   { name := "sociologic_get_persona"
     schema := GetPersonaSchema
     run := fun _ parsed =>
       .api "GET" ("/api/v1/personas/" ++ encodeURIComponent (pStr parsed "slug"))
         none [] 30000 none },
   { name := "sociologic_create_persona"
     schema := CreatePersonaWithPaymentSchema
     run := fun _ parsed =>
       .api "POST" "/api/v1/personas"
         (some (.obj [("description", pJ parsed "description"),
                      ("fidelity_tier", pJ parsed "fidelity_tier")]))
         [] 30000 (mkXp parsed) },
   { name := "sociologic_interview_persona"
     schema := InterviewPersonaWithPaymentSchema
     run := fun _ parsed =>
       .api "POST" ("/api/v1/personas/" ++ encodeURIComponent (pStr parsed "slug")
           ++ "/interview")
         (some (.obj ([("message", pJ parsed "message")]
           ++ (match parsed.get "conversation_id" with
               | some v => [("conversation_id", v)]
               | none => [])
           ++ [("include_memory", pJ parsed "include_memory"),
               ("save_conversation", pJ parsed "save_conversation"),
               ("stream", .bool false)])))
         [] 30000 (mkXp parsed) },
   { name := "sociologic_get_persona_memories"
     schema := GetPersonaMemoriesSchema
     run := fun _ parsed =>
       .api "GET" ("/api/v1/personas/" ++ encodeURIComponent (pStr parsed "slug")
           ++ "/memories")
         none (qFields parsed ["query", "limit"]) 30000 none },
   { name := "sociologic_list_campaigns"
     schema := ListCampaignsSchema
     run := fun _ parsed => .api "GET" "/api/v1/campaigns" none (qObj parsed) 30000 none },
   { name := "sociologic_get_campaign"
     schema := GetCampaignSchema
     run := fun _ parsed =>
       .api "GET" ("/api/v1/campaigns/" ++ encodeURIComponent (pStr parsed "id"))
         none [] 30000 none },
   { name := "sociologic_create_campaign"
     schema := CreateCampaignSchema
     run := fun _ parsed => .api "POST" "/api/v1/campaigns" (some parsed) [] 30000 none },
   { name := "sociologic_execute_campaign"
     schema := ExecuteCampaignSchema
     run := fun _ parsed =>
       .api "POST" ("/api/v1/campaigns/" ++ encodeURIComponent (pStr parsed "id")
           ++ "/execute")
         none [] 30000 none },
   { name := "sociologic_export_campaign"
     schema := ExportCampaignSchema
     run := fun cfg parsed =>
       if pStr parsed "format" = "pdf" then
         .pureResult (exportPdfResult cfg (pStr parsed "id"))
       else
         .api "GET" ("/api/v1/campaigns/" ++ encodeURIComponent (pStr parsed "id")
             ++ "/export")
           none [("format", pStr parsed "format")] 30000 none },
   { name := "sociologic_list_focus_groups"
     schema := ListFocusGroupsSchema
     run := fun _ parsed => .api "GET" "/api/v1/focus-groups" none (qObj parsed) 30000 none },
   { name := "sociologic_get_focus_group"
     schema := GetFocusGroupSchema
     run := fun _ parsed =>
       .api "GET" ("/api/v1/focus-groups/" ++ encodeURIComponent (pStr parsed "id"))
         none [] 30000 none },
   { name := "sociologic_create_focus_group"
     schema := CreateFocusGroupSchema
     run := fun _ parsed => .api "POST" "/api/v1/focus-groups" (some parsed) [] 30000 none },
   { name := "sociologic_add_personas_to_focus_group"
     schema := AddPersonasToFocusGroupSchema
     run := fun _ parsed =>
       .api "POST" ("/api/v1/focus-groups/"
           ++ encodeURIComponent (pStr parsed "focus_group_id") ++ "/personas")
         (some (.obj [("persona_ids", pJ parsed "persona_ids")])) [] 30000 none },
   { name := "sociologic_get_credits_balance"
     schema := GetCreditsBalanceSchema
     run := fun _ _ => .api "GET" "/api/v1/auth/validate" none [] 30000 none },
   { name := "sociologic_get_x402_discovery"
     schema := GetX402DiscoverySchema
     run := fun _ _ => .x402Disco },
   { name := "sociologic_scrape_url"
     schema := ScrapeUrlSchema
     run := fun _ parsed =>
       .api "POST" "/api/v1/research/scrape"
         (some (.obj [("url", pJ parsed "url"),
                      ("formats", pJ parsed "formats"),
                      ("only_main_content", pJ parsed "only_main_content")]))
         [] 60000 none },
   { name := "sociologic_search_web"
     schema := SearchWebSchema
     run := fun _ parsed =>
       .api "POST" "/api/v1/research/search"
         (some (.obj [("query", pJ parsed "query"), ("limit", pJ parsed "limit")]))
         [] 60000 none },
   { name := "sociologic_research_topic"
     schema := ResearchTopicSchema
     run := fun _ parsed =>
       .api "POST" "/api/v1/research/topic"
         (some (.obj [("topic", pJ parsed "topic"),
                      ("source_count", pJ parsed "source_count")]))
         [] 90000 none },
   { name := "sociologic_get_company_info"
     schema := GetCompanyInfoSchema
     run := fun _ parsed =>
       .api "POST" "/api/v1/research/company"
         (some (.obj [("url", pJ parsed "url")])) [] 60000 none }]

/-- The names of the declared tools, in order. -/
def toolNames : List String := TOOL_DEFINITIONS.map (fun t => t.name)

/-- Case selection of `executeTool`'s switch statement. -/
def toolByName (n : String) : Option ToolDef :=
  TOOL_DEFINITIONS.find? (fun t => t.name = n)

/-- `MCPHandler.executeTool`: validate the arguments with the tool's schema
(`safeParseArgs` throws the `Invalid parameters: ...` message, modelled as
`Except.error`), run the tool, or throw `Unknown tool: ...` for a name that
matches no case.  On success the returned pair is the tool result and the
outbound calls performed. -/
def executeTool (cfg : Config) (oracle : RestCall → FetchOutcome)
    (name : Option Json) (args : Option Json) :
    Except String (Json × List RestCall) :=
  match name with
  | some (.str n) =>
    match toolByName n with
    | some t =>
      match zodSafeParse t.schema args with
      | .error errs => .error (invalidParamsMsg errs)
      | .ok parsed => .ok (performAction cfg oracle (t.run cfg parsed))
    | none => .error ("Unknown tool: " ++ n)
  | other => .error ("Unknown tool: " ++ jsDisplay other)

-- ============================================
-- MCP protocol handler (class MCPHandler)
-- ============================================

/-- JSON string escaping for the serializer below. -/
def escapeJson (s : String) : String :=
  ⟨s.data.foldr (fun c acc =>
    (if c = '"' then ['\\', '"']
     else if c = '\\' then ['\\', '\\']
     else if c = '\n' then ['\\', 'n']
     else if c = '\r' then ['\\', 'r']
     else if c = '\t' then ['\\', 't']
     else [c]) ++ acc) []⟩

/-- A JSON serializer standing in for `JSON.stringify(result, null, 2)` in
the `tools/call` response (the source pretty-prints with two-space indent;
the embedding renders compactly, as no verified claim concerns the rendered
text).  The fuel bounds the nesting depth. -/
def renderJson : Nat → Json → String
  | 0, _ => ""
  | Nat.succ fuel, j =>
    match j with
    | .null => "null"
    | .bool b => if b then "true" else "false"
    | .num n => toString n
    | .str s => "\"" ++ escapeJson s ++ "\""
    | .arr xs =>
      "[" ++ String.intercalate "," (xs.map (renderJson fuel)) ++ "]"
    | .obj fields =>
      "\x7b" ++ String.intercalate ","
        (fields.map (fun p => "\"" ++ escapeJson p.1 ++ "\":" ++ renderJson fuel p.2))
        ++ "\x7d"

/-- The `error` member of an `MCPResponse`. -/
structure MCPError where
  code : Int
  message : String
  data : Option Json := none

/-- `MCPResponse`: `jsonrpc` is always `"2.0"` and is left implicit; `id`
mirrors the request `id` slot (`none` = the JS value was `undefined`, and
`JSON.stringify` then omits the field). -/
structure MCPResponse where
  id : Option Json
  result : Option Json := none
  error : Option MCPError := none

/-- The `initialize` success payload (protocol version, capabilities and
server info literals of the source). -/
def initializeResult : Json :=
  .obj [("protocolVersion", .str "2024-11-05"),
        ("capabilities", .obj [("tools", .obj []), ("prompts", .obj []),
                               ("resources", .obj [])]),
        ("serverInfo", .obj
          [("name", .str "sociologic-mcp-server"),
           ("version", .str "1.0.2"),
           ("description", .str ("SocioLogic Revenue Intelligence Platform - "
              ++ "High-fidelity synthetic personas for market research"))])]

/-- `MCPHandler.handleInitialize`: exactly one backend call (the credential
check `getCreditsBalance`, i.e. `GET /api/v1/auth/validate`), then either the
capability metadata or an INVALID_REQUEST (-32600) error carrying the
validation failure message. -/
def handleInitialize (cfg : Config) (oracle : RestCall → FetchOutcome)
    (id : Option Json) : MCPResponse × List RestCall :=
  let pr := clientRequest cfg "GET" "/api/v1/auth/validate" none [] 30000 none oracle
  match pr.1.error with
  | some e =>
    ({ id := id
       error := some { code := -32600
                       message := "API key validation failed: " ++ e.message } },
     pr.2)
  | none => ({ id := id, result := some initializeResult }, pr.2)

/-- `MCPHandler.handleToolsList`: the declared tool set.  (The source also
attaches each tool's description, `zodToJsonSchema`-converted input schema
and annotations — static metadata produced partly by an external library —
which the embedding leaves out, as no verified claim concerns it.) -/
def handleToolsList (id : Option Json) : MCPResponse × List RestCall :=
  ({ id := id
     result := some (.obj [("tools",
       .arr (TOOL_DEFINITIONS.map (fun t => .obj [("name", .str t.name)])))]) },
   [])

/-- `MCPHandler.handlePromptsList`: a static list of three prompts. -/
def handlePromptsList (id : Option Json) : MCPResponse × List RestCall :=
  ({ id := id
     result := some (.obj [("prompts", .arr
       [.obj [("name", .str "interview_persona")],
        .obj [("name", .str "run_research_campaign")],
        .obj [("name", .str "competitive_analysis")]])]) },
   [])

/-- `MCPHandler.handleResourcesList`: a static list of three resources. -/
def handleResourcesList (id : Option Json) : MCPResponse × List RestCall :=
  ({ id := id
     result := some (.obj [("resources", .arr
       [.obj [("uri", .str "sociologic://personas/marketplace")],
        .obj [("uri", .str "sociologic://campaigns/templates")],
        .obj [("uri", .str "sociologic://account/credits")]])]) },
   [])

/-- The engine TypeError thrown when `tools/call` arrives with `params`
missing or null (`const { name, ... } = params` on a nullish value); the
exact wording is engine-specific, and this constant stands in for it.  The
outer catch of `handleRequest` turns it into an INTERNAL_ERROR response. -/
def destructureNullishMsg : String :=
  "Cannot destructure property 'name' of 'params' as it is "

/-- `MCPHandler.handleToolsCall` (for non-nullish `params`): run the tool and
wrap the result as text content, or catch the thrown message into an
INTERNAL_ERROR (-32603) tagged with the tool name in `data`. -/
def handleToolsCall (cfg : Config) (oracle : RestCall → FetchOutcome)
    (id : Option Json) (name : Option Json) (args : Option Json) :
    MCPResponse × List RestCall :=
  match executeTool cfg oracle name args with
  | .ok (result, calls) =>
    ({ id := id
       result := some (.obj [("content", .arr
         [.obj [("type", .str "text"),
                ("text", .str (renderJson 1000 result))]])]) },
     calls)
  | .error msg =>
    ({ id := id
       error := some { code := -32603
                       message := msg
                       data := some (.obj (match name with
                         | some j => [("tool", j)]
                         | none => [])) } },
     [])

/-- `MCPHandler.handleRequest`: the method dispatch table.  The outer
`try`/`catch` of the source (INTERNAL_ERROR with the thrown message) is
reachable only through the nullish-`params` destructuring throw of
`tools/call`, since every embedded handler is total. -/
def handleRequest (cfg : Config) (oracle : RestCall → FetchOutcome)
    (id : Option Json) (method : String) (params : Option Json) :
    MCPResponse × List RestCall :=
  match method with
  | "initialize" => handleInitialize cfg oracle id
  | "tools/list" => handleToolsList id
  | "tools/call" =>
    match params with
    | none =>
      ({ id := id, error := some { code := -32603
                                   message := destructureNullishMsg ++ "undefined." } }, [])
    | some .null =>
      ({ id := id, error := some { code := -32603
                                   message := destructureNullishMsg ++ "null." } }, [])
    | some p => handleToolsCall cfg oracle id (p.get "name") (p.get "arguments")
  | "prompts/list" => handlePromptsList id
  | "resources/list" => handleResourcesList id
  | "ping" => ({ id := id, result := some (.obj [("pong", .bool true)]) }, [])
  | other =>
    ({ id := id
       error := some { code := -32601, message := "Method not found: " ++ other } },
     [])

-- ============================================
-- Cloudflare Workers fetch handler (export default { fetch })
-- ============================================

/-- `MAX_REQUEST_SIZE`: the 1 MiB request body ceiling. -/
def MAX_REQUEST_SIZE : Nat := 1024 * 1024

/-- An incoming HTTP request, as far as the worker inspects it.  The body is
the text `request.text()` yields (the UTF-8 bytes decoded to a string). -/
structure HttpRequest where
  method : String
  path : String
  contentLength : Option String := none
  xApiKey : Option String := none
  authorization : Option String := none
  body : String := ""

/-- The API key extraction of the worker:
`(headers.get("X-API-Key") || headers.get("Authorization")?.replace("Bearer ", ""))?.trim()`
followed by the `if (!apiKey)` falsiness test.  `none` means the request is
rejected with 401.  Note `replace` removes the FIRST occurrence of
`"Bearer "` anywhere in the value, not only a leading one. -/
def extractApiKey (xApiKey authorization : Option String) : Option String :=
  let lhs : Option String :=
    match xApiKey with
    | some s => if s = "" then none else some s
    | none => none
  let raw : Option String :=
    match lhs with
    | some s => some s
    | none => authorization.map (fun a => jsReplaceFirst a "Bearer " "")
  match raw with
  | none => none
  | some s => let t := jsTrim s; if t = "" then none else some t

/-- The early Content-Length gate:
`contentLength && parseInt(contentLength, 10) > MAX_REQUEST_SIZE`
(an absent or empty header is falsy; an unparsable header is `NaN`, and
`NaN > MAX_REQUEST_SIZE` is false). -/
def clTooLarge (contentLength : Option String) : Bool :=
  match contentLength with
  | some s =>
    (!(s = "")) && (match jsParseInt s with
                    | some n => decide (n > (MAX_REQUEST_SIZE : Int))
                    | none => false)
  | none => false

/-- The response bodies the worker can produce, tagged by shape.  Static
informational bodies (server card, health, info, 404 listing, 501) are
represented by their tag; their JSON literals are not inspected by any
verified claim. -/
inductive WorkerBody where
  /-- 204 CORS preflight (empty body). -/
  | preflight
  /-- The Smithery discovery document (no auth required). -/
  | serverCard
  /-- A JSON-RPC-shaped error envelope `(id, code, message)`. -/
  | rpcErr : Json → Int → String → WorkerBody
  /-- `{error: {code, message}}` non-RPC error objects (401 auth, 501 SSE,
  404 unknown path), tagged by their `code` string. -/
  | errObj : String → WorkerBody
  /-- 405: POST required for JSON-RPC (an error envelope with no id). -/
  | postRequired
  /-- A JSON-RPC response from `MCPHandler.handleRequest`. -/
  | rpc : MCPResponse → WorkerBody
  /-- `/health` body. -/
  | health
  /-- `/info` body. -/
  | info

/-- An HTTP response: status plus body descriptor. -/
structure WorkerResponse where
  status : Nat
  body : WorkerBody

/-- The oversized-body rejection (413, JSON-RPC INVALID_REQUEST, id null). -/
def oversizedResponse : WorkerResponse :=
  { status := 413
    body := .rpcErr .null (-32600)
      ("Request body too large. Maximum size is " ++ toString MAX_REQUEST_SIZE
        ++ " bytes.") }

/-- Is the request `id` slot admissible (undefined, null, string or number)? -/
def idSlotOk : Option Json → Bool
  | none => true
  | some .null => true
  | some (.str _) => true
  | some (.num _) => true
  | some _ => false

/-- The JSON-RPC stage of the worker (the POST branch for `/`, `/mcp`,
`/rpc`): body size check against the ceiling (the source compares
`bodyText.length`, i.e. UTF-16 code units), `JSON.parse`, object check,
envelope checks, id check, then `MCPHandler.handleRequest`. -/
def rpcStage (cfg : Config) (jp : String → Option Json)
    (oracle : RestCall → FetchOutcome) (body : String) :
    WorkerResponse × List RestCall :=
  if utf16Len body > MAX_REQUEST_SIZE then (oversizedResponse, [])
  else
    match jp body with
    | none =>
      ({ status := 400, body := .rpcErr .null (-32700) "Failed to parse JSON body" }, [])
    | some parsed =>
      match parsed with
      | .obj fields =>
        let idv := jGet fields "id"
        let envelopeOk : Bool :=
          (match jGet fields "jsonrpc" with
           | some (.str s) => decide (s = "2.0")
           | _ => false)
          && (match jGet fields "method" with
              | some (.str _) => true
              | _ => false)
        if envelopeOk then
          if idSlotOk idv then
            match jGet fields "method" with
            | some (.str m) =>
              let pr := handleRequest cfg oracle idv m (jGet fields "params")
              ({ status := 200, body := .rpc pr.1 }, pr.2)
            | _ =>
              -- unreachable: envelopeOk forces the method slot to be a string
              ({ status := 400, body := .rpcErr (idv.getD .null) (-32600)
                  "Invalid JSON-RPC 2.0 request: requires jsonrpc='2.0' and method string" }, [])
          else
            ({ status := 400, body := .rpcErr .null (-32600)
                "Invalid JSON-RPC request: id must be string, number, or null" }, [])
        else
          ({ status := 400, body := .rpcErr (idv.getD .null) (-32600)
              "Invalid JSON-RPC 2.0 request: requires jsonrpc='2.0' and method string" }, [])
      | _ =>
        ({ status := 400, body := .rpcErr .null (-32600)
            "Request body must be a JSON object" }, [])

/-- The full worker `fetch` handler.  `envApiUrl` is
`env.SOCIOLOGIC_API_URL` (`|| "https://www.sociologic.ai"`); `now` stands for
`Date.now()`; `jp` is the runtime `JSON.parse` (`none` = parse exception).
Returns the response together with every outbound backend call performed
while handling the request. -/
def workerFetch (envApiUrl : Option String) (now : Nat)
    (jp : String → Option Json) (oracle : RestCall → FetchOutcome)
    (req : HttpRequest) : WorkerResponse × List RestCall :=
  if req.method = "OPTIONS" then
    ({ status := 204, body := .preflight }, [])
  else if req.path = "/.well-known/mcp/server-card.json" then
    ({ status := 200, body := .serverCard }, [])
  else if clTooLarge req.contentLength then
    (oversizedResponse, [])
  else
    match extractApiKey req.xApiKey req.authorization with
    | none => ({ status := 401, body := .errObj "AUTHENTICATION_REQUIRED" }, [])
    | some key =>
      let apiUrl :=
        match envApiUrl with
        | some s => if s = "" then "https://www.sociologic.ai" else s
        | none => "https://www.sociologic.ai"
      let cfg : Config := { apiUrl := stripTrailingSlash apiUrl, apiKey := key, now := now }
      if req.path = "/sse" ∨ req.path = "/mcp/sse" then
        ({ status := 501, body := .errObj "NOT_IMPLEMENTED" }, [])
      else if req.path = "/" ∨ req.path = "/mcp" ∨ req.path = "/rpc" then
        if req.method ≠ "POST" then
          ({ status := 405, body := .postRequired }, [])
        else
          rpcStage cfg jp oracle req.body
      else if req.path = "/health" then
        ({ status := 200, body := .health }, [])
      else if req.path = "/info" then
        ({ status := 200, body := .info }, [])
      else
        ({ status := 404, body := .errObj "NOT_FOUND" }, [])

-- ============================================
-- Concrete fixtures for witnesses and counterexamples
-- ============================================

/-- A concrete client configuration (the values of the test suite). -/
def cfg₀ : Config :=
  { apiUrl := "https://www.sociologic.ai", apiKey := "test-api-key-123" }

/-- A concrete oracle: every fetch succeeds with an empty `ApiResponse`. -/
def oracle₀ : RestCall → FetchOutcome := fun _ => .success {}

/-- A concrete oracle: every fetch comes back 401 with a backend error
body (the mock the test suite uses for an invalid key). -/
def oracle401 : RestCall → FetchOutcome := fun _ =>
  .httpError 401 "Unauthorized" (some { code := some "UNAUTHORIZED"
                                        message := some "Invalid API key" })

/-- A concrete stand-in for `JSON.parse` that fails on every input (used
only on inputs that are not valid JSON). -/
def jp₀ : String → Option Json := fun _ => none

/-- Concrete uuids used by witnesses. -/
def uuid₀ : String := "223e4567-e89b-12d3-a456-426614174000"

/-- See `uuid₀`. -/
def uuid₁ : String := "123e4567-e89b-12d3-a456-426614174000"

-- ============================================
-- Helper lemmas
-- ============================================

/-- `handleInitialize` echoes the id on both branches. -/
theorem handleInitialize_id (cfg : Config) (oracle : RestCall → FetchOutcome)
    (id : Option Json) : (handleInitialize cfg oracle id).1.id = id := by
  cases h : (clientRequest cfg "GET" "/api/v1/auth/validate" none [] 30000 none oracle).1.error <;>
    simp [handleInitialize, h]

/-- The only error `handleInitialize` produces carries code -32600. -/
theorem handleInitialize_error_code (cfg : Config) (oracle : RestCall → FetchOutcome)
    (id : Option Json) (e : MCPError)
    (he : (handleInitialize cfg oracle id).1.error = some e) : e.code = -32600 := by
  cases h : (clientRequest cfg "GET" "/api/v1/auth/validate" none [] 30000 none oracle).1.error <;>
    simp [handleInitialize, h] at he
  cases he
  rfl

/-- `handleToolsCall` echoes the id on both branches. -/
theorem handleToolsCall_id (cfg : Config) (oracle : RestCall → FetchOutcome)
    (id name args : Option Json) :
    (handleToolsCall cfg oracle id name args).1.id = id := by
  rcases h : executeTool cfg oracle name args with msg | ⟨r, cs⟩ <;>
    simp [handleToolsCall, h]

/-- The only error `handleToolsCall` produces carries code -32603. -/
theorem handleToolsCall_error_code (cfg : Config) (oracle : RestCall → FetchOutcome)
    (id name args : Option Json) (e : MCPError)
    (he : (handleToolsCall cfg oracle id name args).1.error = some e) :
    e.code = -32603 := by
  rcases h : executeTool cfg oracle name args with msg | ⟨r, cs⟩ <;>
    simp [handleToolsCall, h] at he
  cases he
  rfl

/-- The only error the `tools/call` dispatch branch produces carries code
-32603 (either from `handleToolsCall` or from the nullish-`params` throw). -/
theorem toolsCall_branch_error_code (cfg : Config) (oracle : RestCall → FetchOutcome)
    (id params : Option Json) (e : MCPError)
    (he : (handleRequest cfg oracle id "tools/call" params).1.error = some e) :
    e.code = -32603 := by
  rcases params with _ | p
  · simp [handleRequest] at he
    cases he
    rfl
  · cases p <;> simp only [handleRequest] at he
    case null =>
      cases he
      rfl
    all_goals exact handleToolsCall_error_code cfg oracle id _ _ e he

-- ============================================
-- C2: the response id echoes the request id
-- ============================================

/-- C2: for every envelope dispatched by `MCPHandler.handleRequest` — any
method, any params, any backend behaviour — the response `id` is the request
`id` unchanged, on the result branch and on every error branch.  Ids are
JSON values here, so a string id stays that string and a number id stays
that number. -/
theorem C2_idEcho (cfg : Config) (oracle : RestCall → FetchOutcome)
    (id : Option Json) (method : String) (params : Option Json) :
    (handleRequest cfg oracle id method params).1.id = id := by
  unfold handleRequest
  split
  · exact handleInitialize_id cfg oracle id
  · rfl
  · split
    · rfl
    · rfl
    · exact handleToolsCall_id cfg oracle id _ _
  · rfl
  · rfl
  · rfl
  · rfl

-- ============================================
-- C4: the method dispatch table
-- ============================================

/-- The six dispatched RPC method names. -/
def dispatchedMethods : List String :=
  ["initialize", "tools/list", "tools/call", "prompts/list", "resources/list", "ping"]

/-- C4: `handleRequest` maps each of the six method names `initialize`,
`tools/list`, `tools/call`, `prompts/list`, `resources/list` and `ping` to a
handler — a request with one of these methods never yields the
method-not-found error — and every other method value yields exactly the
method-not-found error (code -32601) naming the method. -/
theorem C4_dispatch (cfg : Config) (oracle : RestCall → FetchOutcome)
    (id : Option Json) (params : Option Json) (m : String) :
    (m ∈ dispatchedMethods →
      ∀ e, (handleRequest cfg oracle id m params).1.error = some e →
        e.code ≠ -32601) ∧
    (m ∉ dispatchedMethods →
      (handleRequest cfg oracle id m params).1.error =
        some { code := -32601, message := "Method not found: " ++ m }) := by
  constructor
  · intro hm e he
    simp only [dispatchedMethods, List.mem_cons, List.not_mem_nil, or_false] at hm
    rcases hm with h | h | h | h | h | h <;> subst h
    · -- initialize: the only error branch carries -32600
      simp only [handleRequest] at he
      have := handleInitialize_error_code cfg oracle id e he
      rw [this]; decide
    · simp [handleRequest, handleToolsList] at he
    · -- tools/call: every error branch carries -32603
      have := toolsCall_branch_error_code cfg oracle id params e he
      rw [this]; decide
    · simp [handleRequest, handlePromptsList] at he
    · simp [handleRequest, handleResourcesList] at he
    · simp [handleRequest] at he
  · intro hm
    simp only [dispatchedMethods, List.mem_cons, List.not_mem_nil, or_false,
      not_or] at hm
    obtain ⟨h1, h2, h3, h4, h5, h6⟩ := hm
    unfold handleRequest
    split <;> simp_all

/-- Witness for C4 at concrete inputs: `prompts/list` is dispatched (no
method-not-found), while `nonexistent/method` is rejected with -32601. -/
theorem C4_dispatch_witness :
    (∀ e, (handleRequest cfg₀ oracle₀ (some (.num 1)) "prompts/list" none).1.error = some e →
        e.code ≠ -32601) ∧
    (handleRequest cfg₀ oracle₀ (some (.num 1)) "nonexistent/method" none).1.error =
      some { code := -32601, message := "Method not found: nonexistent/method" } := by
  constructor
  · exact (C4_dispatch cfg₀ oracle₀ (some (.num 1)) none "prompts/list").1 (by decide)
  · exact (C4_dispatch cfg₀ oracle₀ (some (.num 1)) none "nonexistent/method").2 (by decide)

-- ============================================
-- C8: unknown methods and unknown tools
-- ============================================

/-- A method outside the dispatch table falls to the default branch. -/
theorem handleRequest_unknown_method (cfg : Config) (oracle : RestCall → FetchOutcome)
    (id params : Option Json) (m : String) (hm : m ∉ dispatchedMethods) :
    (handleRequest cfg oracle id m params).1.error =
      some { code := -32601, message := "Method not found: " ++ m } := by
  simp only [dispatchedMethods, List.mem_cons, List.not_mem_nil, or_false,
    not_or] at hm
  obtain ⟨h1, h2, h3, h4, h5, h6⟩ := hm
  unfold handleRequest
  split <;> simp_all

/-- A name that is not a declared tool matches no case of the switch. -/
theorem toolByName_eq_none (n : String) (hn : n ∉ toolNames) :
    toolByName n = none := by
  rw [toolByName, List.find?_eq_none]
  intro t ht
  simp only [toolNames, TOOL_DEFINITIONS, List.map_cons, List.map_nil,
    List.mem_cons, List.not_mem_nil, or_false, not_or] at hn
  fin_cases ht <;> simp_all [eq_comm]

/-- C8: a well-formed envelope whose method is not in the dispatch table is
answered with method-not-found (-32601) naming the method, while a
`tools/call` for a name that is not a declared tool is answered with
internal-error (-32603) whose message names the tool and whose `data` field
carries the tool name. -/
theorem C8_unknownHandling (cfg : Config) (oracle : RestCall → FetchOutcome)
    (id : Option Json) :
    (∀ m params, m ∉ dispatchedMethods →
      (handleRequest cfg oracle id m params).1.error =
        some { code := -32601, message := "Method not found: " ++ m }) ∧
    (∀ n args, n ∉ toolNames →
      (handleRequest cfg oracle id "tools/call"
          (some (.obj [("name", .str n), ("arguments", args)]))).1.error =
        some { code := -32603, message := "Unknown tool: " ++ n,
               data := some (.obj [("tool", .str n)]) }) := by
  constructor
  · intro m params hm
    exact handleRequest_unknown_method cfg oracle id params m hm
  · intro n args hn
    have hfind := toolByName_eq_none n hn
    simp [handleRequest, handleToolsCall, executeTool, Json.get, jGet, hfind]

/-- Witness for C8: the method `prompts/get` is not dispatched, and the
tool name `sociologic_no_such_tool` is not declared. -/
theorem C8_unknownHandling_witness :
    (handleRequest cfg₀ oracle₀ (some (.num 3)) "prompts/get" none).1.error =
      some { code := -32601, message := "Method not found: prompts/get" } ∧
    (handleRequest cfg₀ oracle₀ (some (.num 3)) "tools/call"
        (some (.obj [("name", .str "sociologic_no_such_tool"),
                     ("arguments", .obj [])]))).1.error =
      some { code := -32603, message := "Unknown tool: sociologic_no_such_tool",
             data := some (.obj [("tool", .str "sociologic_no_such_tool")]) } :=
  ⟨(C8_unknownHandling cfg₀ oracle₀ (some (.num 3))).1 "prompts/get" none (by decide),
   (C8_unknownHandling cfg₀ oracle₀ (some (.num 3))).2 "sociologic_no_such_tool"
     (.obj []) (by decide)⟩

-- ============================================
-- C5: initialize performs exactly one backend call
-- ============================================

/-- The credential-check call `handleInitialize` performs. -/
def validateCall (cfg : Config) : RestCall :=
  mkRestCall cfg "GET" "/api/v1/auth/validate" none [] 30000 none

/-- C5: an `initialize` request performs exactly one backend call — the
credential check `getCreditsBalance`, a GET of `/api/v1/auth/validate` with
the caller's key and the 30 s timeout — before returning capability
metadata; if that call reports an error, the response is the
invalid-request error (-32600) carrying the validation failure message, and
otherwise the capability metadata is returned. -/
theorem C5_initializeOneCall (cfg : Config) (oracle : RestCall → FetchOutcome)
    (id params : Option Json) :
    handleRequest cfg oracle id "initialize" params = handleInitialize cfg oracle id ∧
    (handleInitialize cfg oracle id).2 = [validateCall cfg] ∧
    (∀ e, (requestOutcome 30000 (oracle (validateCall cfg))).error = some e →
      (handleInitialize cfg oracle id).1 =
        { id := id,
          error := some { code := -32600,
                          message := "API key validation failed: " ++ e.message } }) ∧
    ((requestOutcome 30000 (oracle (validateCall cfg))).error = none →
      (handleInitialize cfg oracle id).1 =
        { id := id, result := some initializeResult }) := by
  refine ⟨rfl, ?_, ?_, ?_⟩
  · cases h : (requestOutcome 30000 (oracle (validateCall cfg))).error <;>
      (simp only [validateCall] at h; simp [handleInitialize, clientRequest, validateCall, h])
  · intro e he
    simp only [validateCall] at he
    simp [handleInitialize, clientRequest, he]
  · intro h
    simp only [validateCall] at h
    simp [handleInitialize, clientRequest, h]

/-- Witness for C5: with a backend that answers the credential check with an
HTTP 401 error body, `initialize` yields the -32600 error carrying the
backend message; with a succeeding backend it yields the metadata; both
perform exactly the one credential-check call. -/
theorem C5_initializeOneCall_witness :
    (handleInitialize cfg₀ oracle401 (some (.num 0))).2 = [validateCall cfg₀] ∧
    (handleInitialize cfg₀ oracle401 (some (.num 0))).1 =
      { id := some (.num 0),
        error := some { code := -32600,
                        message := "API key validation failed: Invalid API key" } } ∧
    (handleInitialize cfg₀ oracle₀ (some (.num 0))).1 =
      { id := some (.num 0), result := some initializeResult } :=
  ⟨(C5_initializeOneCall cfg₀ oracle401 (some (.num 0)) none).2.1,
   (C5_initializeOneCall cfg₀ oracle401 (some (.num 0)) none).2.2.1
     { code := "UNAUTHORIZED", message := "Invalid API key" } rfl,
   (C5_initializeOneCall cfg₀ oracle₀ (some (.num 0)) none).2.2.2 rfl⟩

-- ============================================
-- C9: the backend client's request function
-- ============================================

/-- C9: `SocioLogicClient.request` never throws and performs exactly one
`fetch` per invocation (no retry); an aborted wait is reported as a
`TIMEOUT` code/message pair naming the bounded wait, any other rejection as
`NETWORK_ERROR`, and a non-2xx response as a code/message pair derived from
the response (its `error.code`, or `HTTP_<status>` when the body provides
none). -/
theorem C9_requestNormalizes (cfg : Config) (method path : String)
    (body : Option Json) (query : List (String × String)) (timeoutMs : Nat)
    (xp : Option XPaymentHeader) (oracle : RestCall → FetchOutcome) :
    (clientRequest cfg method path body query timeoutMs xp oracle).2 =
      [mkRestCall cfg method path body query timeoutMs xp] ∧
    (oracle (mkRestCall cfg method path body query timeoutMs xp) = .abort →
      (clientRequest cfg method path body query timeoutMs xp oracle).1.error =
        some { code := "TIMEOUT"
               message := "Request timed out after " ++ toString timeoutMs ++ "ms" }) ∧
    (∀ msg, oracle (mkRestCall cfg method path body query timeoutMs xp) = .networkError msg →
      (clientRequest cfg method path body query timeoutMs xp oracle).1.error =
        some { code := "NETWORK_ERROR", message := msg }) ∧
    (∀ status statusText eb,
      oracle (mkRestCall cfg method path body query timeoutMs xp) =
        .httpError status statusText eb →
      (clientRequest cfg method path body query timeoutMs xp oracle).1.error.map
          (fun e => e.code) =
        some (match eb with
              | some b => b.code.getD ("HTTP_" ++ toString status)
              | none => "HTTP_" ++ toString status)) := by
  refine ⟨rfl, ?_, ?_, ?_⟩
  · intro h
    simp [clientRequest, requestOutcome, h]
  · intro msg h
    simp [clientRequest, requestOutcome, h]
  · intro status statusText eb h
    cases eb <;> simp [clientRequest, requestOutcome, h]

/-- A concrete oracle whose every fetch aborts (times out). -/
def oracleAbort : RestCall → FetchOutcome := fun _ => .abort

/-- Witness for C9 at a concrete call: a timed-out credential check yields
one recorded fetch and the `TIMEOUT` error naming the 30000 ms wait. -/
theorem C9_requestNormalizes_witness :
    (clientRequest cfg₀ "GET" "/api/v1/auth/validate" none [] 30000 none oracleAbort).2 =
      [mkRestCall cfg₀ "GET" "/api/v1/auth/validate" none [] 30000 none] ∧
    (clientRequest cfg₀ "GET" "/api/v1/auth/validate" none [] 30000 none oracleAbort).1.error =
      some { code := "TIMEOUT", message := "Request timed out after 30000ms" } :=
  ⟨(C9_requestNormalizes cfg₀ "GET" "/api/v1/auth/validate" none [] 30000 none
      oracleAbort).1,
   (C9_requestNormalizes cfg₀ "GET" "/api/v1/auth/validate" none [] 30000 none
      oracleAbort).2.1 rfl⟩

-- ============================================
-- C10: API key extraction (corrected)
-- ============================================

/-- C10 counterexample: the claim says an Authorization value with no
`"Bearer "` PREFIX is used verbatim, but `replace("Bearer ", "")` removes
the first occurrence anywhere: `"xxBearer yy"` (no such prefix) is forwarded
as `"xxyy"`, not verbatim. -/
theorem C10_counterexample :
    extractApiKey none (some "xxBearer yy") = some "xxyy" ∧
    extractApiKey none (some "xxBearer yy") ≠ some "xxBearer yy" := by
  constructor
  · rfl
  · intro h
    rw [show extractApiKey none (some "xxBearer yy") = some "xxyy" from rfl] at h
    simp at h

/-- C10 (amended): a non-empty `X-API-Key` takes precedence over
`Authorization` and is used trimmed (whitespace-only trims to empty and
yields the 401 `none`); an empty `X-API-Key` falls through to
`Authorization`, whose value is used — trimmed, empty meaning 401 — with the
FIRST occurrence of `"Bearer "` anywhere in it removed; when the value does
start with `"Bearer "` this removes exactly that leading marker. -/
theorem C10_apiKeyExtraction :
    (∀ (s : String) (a : Option String), s ≠ "" →
      extractApiKey (some s) a =
        (if jsTrim s = "" then none else some (jsTrim s))) ∧
    (∀ a : String, extractApiKey none (some a) =
        (if jsTrim (jsReplaceFirst a "Bearer " "") = "" then none
         else some (jsTrim (jsReplaceFirst a "Bearer " "")))) ∧
    (∀ a : String, extractApiKey (some "") (some a) = extractApiKey none (some a)) ∧
    (∀ a : String, listLeads "Bearer ".data a.data = true →
      jsReplaceFirst a "Bearer " "" = ⟨a.data.drop 7⟩) := by
  refine ⟨?_, ?_, ?_, ?_⟩
  · intro s a hs
    simp [extractApiKey, hs]
  · intro a
    rfl
  · intro a
    rfl
  · intro a h
    unfold jsReplaceFirst
    rw [if_neg (by decide)]
    rcases hd : a.data with _ | ⟨c, cs⟩
    · rw [hd] at h
      exact absurd h (by decide)
    · rw [hd] at h
      unfold listReplaceFirst
      rw [if_pos h]
      rfl

/-- Witness for C10 at concrete headers: a padded `X-API-Key` wins over a
Bearer Authorization and is trimmed; a `Bearer `-prefixed Authorization
yields the bare token; `replace` strips the leading marker. -/
theorem C10_apiKeyExtraction_witness :
    extractApiKey (some "  key  ") (some "Bearer other") = some "key" ∧
    extractApiKey none (some "Bearer tok") = some "tok" ∧
    jsReplaceFirst "Bearer tok" "Bearer " "" = "tok" := by
  refine ⟨?_, ?_, ?_⟩
  · rw [C10_apiKeyExtraction.1 "  key  " (some "Bearer other") (by decide)]
    rfl
  · rw [C10_apiKeyExtraction.2.1 "Bearer tok"]
    rfl
  · rw [C10_apiKeyExtraction.2.2.2 "Bearer tok" (by decide)]
    rfl

-- ============================================
-- C3: one REST call per tool (corrected)
-- ============================================

/-- A successful `executeTool` decomposes into a validated parse and the
tool's action. -/
theorem executeTool_ok (cfg : Config) (oracle : RestCall → FetchOutcome)
    (n : String) (args : Option Json) (r : Json × List RestCall) (t : ToolDef)
    (ht : toolByName n = some t)
    (h : executeTool cfg oracle (some (.str n)) args = .ok r) :
    ∃ parsed, zodSafeParse t.schema args = .ok parsed ∧
      r = performAction cfg oracle (t.run cfg parsed) := by
  simp only [executeTool, ht] at h
  rcases hzp : zodSafeParse t.schema args with errs | parsed <;> rw [hzp] at h
  · exact absurd h (by simp)
  · injection h with h'
    exact ⟨parsed, rfl, h'.symm⟩

/-- C3 counterexample: a successful `tools/call` of
`sociologic_export_campaign` with format `"pdf"` performs ZERO outbound REST
calls (the client hands back the export URL without calling the backend),
refuting "exactly one outbound REST call ... in particular ... in both its
pdf and json formats". -/
theorem C3_counterexample :
    executeTool cfg₀ oracle₀ (some (.str "sociologic_export_campaign"))
        (some (.obj [("id", .str "223e4567-e89b-12d3-a456-426614174000"),
                     ("format", .str "pdf")]))
      = .ok (exportPdfResult cfg₀ "223e4567-e89b-12d3-a456-426614174000", []) ∧
    ([] : List RestCall).length ≠ 1 := by
  exact ⟨rfl, by decide⟩

/-- C3 (amended): a successful `tools/call` performs exactly one outbound
REST call carrying the caller's API key as credential and a per-call
timeout, EXCEPT that `sociologic_export_campaign` in its `"pdf"` format
performs zero calls (returning the export URL instead) and
`sociologic_get_x402_discovery` performs its one fetch without the API key
and without a timeout.  The `"json"` export format does perform exactly one
authenticated, timed call to the campaign's export path. -/
theorem C3_backendCallDiscipline (cfg : Config) (oracle : RestCall → FetchOutcome) :
    (∀ (n : String) (args : Option Json) (r : Json × List RestCall),
      executeTool cfg oracle (some (.str n)) args = .ok r →
      (n = "sociologic_export_campaign" ∧ r.2 = []) ∨
      (n = "sociologic_get_x402_discovery" ∧ r.2 = [x402DiscoveryCall]) ∨
      (∃ c, r.2 = [c] ∧ c.apiKeyHeader = some cfg.apiKey ∧ c.timeoutMs.isSome = true)) ∧
    ((executeTool cfg oracle (some (.str "sociologic_export_campaign"))
        (some (.obj [("id", .str uuid₀), ("format", .str "json")]))).toOption.map
          (fun r => r.2) =
      some [mkRestCall cfg "GET" ("/api/v1/campaigns/" ++ uuid₀ ++ "/export")
              none [("format", "json")] 30000 none]) := by
  constructor
  · intro n args r h
    rcases ht : toolByName n with _ | t
    · rw [executeTool, ht] at h
      exact absurd h (by simp)
    · obtain ⟨parsed, hzp, hr⟩ := executeTool_ok cfg oracle n args r t ht h
      have hname : t.name = n := by
        have := List.find?_some ht
        simpa using this
      have hmem : t ∈ TOOL_DEFINITIONS := List.mem_of_find?_eq_some ht
      subst hname
      fin_cases hmem
      case _ => right; right; subst hr; exact ⟨_, rfl, rfl, rfl⟩
      case _ => right; right; subst hr; exact ⟨_, rfl, rfl, rfl⟩
      case _ => right; right; subst hr; exact ⟨_, rfl, rfl, rfl⟩
      case _ => right; right; subst hr; exact ⟨_, rfl, rfl, rfl⟩
      case _ => right; right; subst hr; exact ⟨_, rfl, rfl, rfl⟩
      case _ => right; right; subst hr; exact ⟨_, rfl, rfl, rfl⟩
      case _ => right; right; subst hr; exact ⟨_, rfl, rfl, rfl⟩
      case _ => right; right; subst hr; exact ⟨_, rfl, rfl, rfl⟩
      case _ => right; right; subst hr; exact ⟨_, rfl, rfl, rfl⟩
      case _ =>
        -- sociologic_export_campaign
        by_cases hfmt : pStr parsed "format" = "pdf"
        · left
          refine ⟨rfl, ?_⟩
          rw [hr]
          simp [performAction, hfmt]
        · right; right
          refine ⟨mkRestCall cfg "GET"
              ("/api/v1/campaigns/" ++ encodeURIComponent (pStr parsed "id") ++ "/export")
              none [("format", pStr parsed "format")] 30000 none, ?_, rfl, rfl⟩
          rw [hr]
          simp [performAction, hfmt, clientRequest]
      case _ => right; right; subst hr; exact ⟨_, rfl, rfl, rfl⟩
      case _ => right; right; subst hr; exact ⟨_, rfl, rfl, rfl⟩
      case _ => right; right; subst hr; exact ⟨_, rfl, rfl, rfl⟩
      case _ => right; right; subst hr; exact ⟨_, rfl, rfl, rfl⟩
      case _ => right; right; subst hr; exact ⟨_, rfl, rfl, rfl⟩
      case _ =>
        -- sociologic_get_x402_discovery
        right; left
        exact ⟨rfl, by rw [hr]; rfl⟩
      case _ => right; right; subst hr; exact ⟨_, rfl, rfl, rfl⟩
      case _ => right; right; subst hr; exact ⟨_, rfl, rfl, rfl⟩
      case _ => right; right; subst hr; exact ⟨_, rfl, rfl, rfl⟩
      case _ => right; right; subst hr; exact ⟨_, rfl, rfl, rfl⟩
  · rfl

/-- Witness for C3 at a concrete tool call: listing personas with default
arguments performs exactly one authenticated, timed backend call (the
trichotomy of the theorem instantiated at that call, whose hypotheses hold
by computation). -/
theorem C3_backendCallDiscipline_witness :
    ("sociologic_list_personas" = "sociologic_export_campaign" ∧
      ([mkRestCall cfg₀ "GET" "/api/v1/personas" none
          [("visibility", "public"), ("page", "1"), ("per_page", "20")] 30000 none] :
        List RestCall) = []) ∨
    ("sociologic_list_personas" = "sociologic_get_x402_discovery" ∧
      ([mkRestCall cfg₀ "GET" "/api/v1/personas" none
          [("visibility", "public"), ("page", "1"), ("per_page", "20")] 30000 none] :
        List RestCall) = [x402DiscoveryCall]) ∨
    (∃ c, ([mkRestCall cfg₀ "GET" "/api/v1/personas" none
          [("visibility", "public"), ("page", "1"), ("per_page", "20")] 30000 none] :
        List RestCall) = [c] ∧
      c.apiKeyHeader = some cfg₀.apiKey ∧ c.timeoutMs.isSome = true) :=
  (C3_backendCallDiscipline cfg₀ oracle₀).1 "sociologic_list_personas"
    (some (.obj []))
    (apiResponseToJson (requestOutcome 30000 (oracle₀ (mkRestCall cfg₀ "GET"
        "/api/v1/personas" none
        [("visibility", "public"), ("page", "1"), ("per_page", "20")] 30000 none))),
     [mkRestCall cfg₀ "GET" "/api/v1/personas" none
        [("visibility", "public"), ("page", "1"), ("per_page", "20")] 30000 none])
    rfl

-- ============================================
-- C6: per-tool argument validation (corrected)
-- ============================================

/-- C6 counterexample: `sociologic_export_campaign` called with exactly its
required field (`id`; the optional `format` takes its declared default
`"pdf"`) passes validation — but does NOT proceed to a backend call: the
call list is empty, refuting "passes validation and proceeds to the backend
call" as stated for every tool. -/
theorem C6_counterexample :
    (executeTool cfg₀ oracle₀ (some (.str "sociologic_export_campaign"))
        (some (.obj [("id", .str uuid₀)]))).toOption.map
      (fun r => r.2.length) = some 0 := rfl

/-- C6 (amended): for every declared tool with at least one required field,
calling it with empty arguments fails before any backend call with a message
of the fixed shape `Invalid parameters: <field>: Required, ...` (each issue
prefixed by the dotted path of its field, nothing else leaked); and calling
any declared tool with all required fields present (optional fields taking
their declared defaults) passes validation and proceeds to the tool's
execution — one backend call for every tool EXCEPT the campaign export,
whose defaulted `"pdf"` format short-circuits to the export URL with zero
backend calls. -/
theorem C6_validationDiscipline (cfg : Config) (oracle : RestCall → FetchOutcome) :
    -- tools with a required field, called with {}: uniform invalid-parameters error
    (executeTool cfg oracle (some (.str "sociologic_get_persona")) (some (.obj []))
      = .error "Invalid parameters: slug: Required") ∧
    (executeTool cfg oracle (some (.str "sociologic_create_persona")) (some (.obj []))
      = .error "Invalid parameters: description: Required") ∧
    (executeTool cfg oracle (some (.str "sociologic_interview_persona")) (some (.obj []))
      = .error "Invalid parameters: slug: Required, message: Required") ∧
    (executeTool cfg oracle (some (.str "sociologic_get_persona_memories")) (some (.obj []))
      = .error "Invalid parameters: slug: Required") ∧
    (executeTool cfg oracle (some (.str "sociologic_get_campaign")) (some (.obj []))
      = .error "Invalid parameters: id: Required") ∧
    (executeTool cfg oracle (some (.str "sociologic_create_campaign")) (some (.obj []))
      = .error "Invalid parameters: name: Required, questions: Required") ∧
    (executeTool cfg oracle (some (.str "sociologic_execute_campaign")) (some (.obj []))
      = .error "Invalid parameters: id: Required") ∧
    (executeTool cfg oracle (some (.str "sociologic_export_campaign")) (some (.obj []))
      = .error "Invalid parameters: id: Required") ∧
    (executeTool cfg oracle (some (.str "sociologic_get_focus_group")) (some (.obj []))
      = .error "Invalid parameters: id: Required") ∧
    (executeTool cfg oracle (some (.str "sociologic_create_focus_group")) (some (.obj []))
      = .error "Invalid parameters: name: Required") ∧
    (executeTool cfg oracle (some (.str "sociologic_add_personas_to_focus_group"))
        (some (.obj []))
      = .error "Invalid parameters: focus_group_id: Required, persona_ids: Required") ∧
    (executeTool cfg oracle (some (.str "sociologic_scrape_url")) (some (.obj []))
      = .error "Invalid parameters: url: Required") ∧
    (executeTool cfg oracle (some (.str "sociologic_search_web")) (some (.obj []))
      = .error "Invalid parameters: query: Required") ∧
    (executeTool cfg oracle (some (.str "sociologic_research_topic")) (some (.obj []))
      = .error "Invalid parameters: topic: Required") ∧
    (executeTool cfg oracle (some (.str "sociologic_get_company_info")) (some (.obj []))
      = .error "Invalid parameters: url: Required") ∧
    -- defaults materialize in the parsed output
    (zodSafeParse ExportCampaignSchema (some (.obj [("id", .str uuid₀)]))
      = .ok (.obj [("id", .str uuid₀), ("format", .str "pdf")])) ∧
    (zodSafeParse ListPersonasSchema (some (.obj []))
      = .ok (.obj [("visibility", .str "public"), ("page", .num 1),
                   ("per_page", .num 20)])) ∧
    -- every declared tool with all required fields present proceeds
    ((executeTool cfg oracle (some (.str "sociologic_list_personas"))
        (some (.obj []))).toOption.map (fun r => r.2.length) = some 1) ∧
    ((executeTool cfg oracle (some (.str "sociologic_get_persona"))
        (some (.obj [("slug", .str "alex-chen")]))).toOption.map
          (fun r => r.2.length) = some 1) ∧
    ((executeTool cfg oracle (some (.str "sociologic_create_persona"))
        (some (.obj [("description", .str "A tech-savvy millennial founder")]))).toOption.map
          (fun r => r.2.length) = some 1) ∧
    ((executeTool cfg oracle (some (.str "sociologic_interview_persona"))
        (some (.obj [("slug", .str "alex-chen"),
                     ("message", .str "Hello")]))).toOption.map
          (fun r => r.2.length) = some 1) ∧
    ((executeTool cfg oracle (some (.str "sociologic_get_persona_memories"))
        (some (.obj [("slug", .str "alex-chen")]))).toOption.map
          (fun r => r.2.length) = some 1) ∧
    ((executeTool cfg oracle (some (.str "sociologic_list_campaigns"))
        (some (.obj []))).toOption.map (fun r => r.2.length) = some 1) ∧
    ((executeTool cfg oracle (some (.str "sociologic_get_campaign"))
        (some (.obj [("id", .str uuid₀)]))).toOption.map
          (fun r => r.2.length) = some 1) ∧
    ((executeTool cfg oracle (some (.str "sociologic_create_campaign"))
        (some (.obj [("name", .str "Research"),
                     ("questions", .arr [.obj [("id", .str "q1"),
                        ("text", .str "What features do you need?")]])]))).toOption.map
          (fun r => r.2.length) = some 1) ∧
    ((executeTool cfg oracle (some (.str "sociologic_execute_campaign"))
        (some (.obj [("id", .str uuid₀)]))).toOption.map
          (fun r => r.2.length) = some 1) ∧
    ((executeTool cfg oracle (some (.str "sociologic_export_campaign"))
        (some (.obj [("id", .str uuid₀)]))).toOption.map
          (fun r => r.2.length) = some 0) ∧
    ((executeTool cfg oracle (some (.str "sociologic_list_focus_groups"))
        (some (.obj []))).toOption.map (fun r => r.2.length) = some 1) ∧
    ((executeTool cfg oracle (some (.str "sociologic_get_focus_group"))
        (some (.obj [("id", .str uuid₀)]))).toOption.map
          (fun r => r.2.length) = some 1) ∧
    ((executeTool cfg oracle (some (.str "sociologic_create_focus_group"))
        (some (.obj [("name", .str "Group")]))).toOption.map
          (fun r => r.2.length) = some 1) ∧
    ((executeTool cfg oracle (some (.str "sociologic_add_personas_to_focus_group"))
        (some (.obj [("focus_group_id", .str uuid₀),
                     ("persona_ids", .arr [.str uuid₁])]))).toOption.map
          (fun r => r.2.length) = some 1) ∧
    ((executeTool cfg oracle (some (.str "sociologic_get_credits_balance"))
        (some (.obj []))).toOption.map (fun r => r.2.length) = some 1) ∧
    ((executeTool cfg oracle (some (.str "sociologic_get_x402_discovery"))
        (some (.obj []))).toOption.map (fun r => r.2.length) = some 1) ∧
    ((executeTool cfg oracle (some (.str "sociologic_scrape_url"))
        (some (.obj [("url", .str "https://example.com")]))).toOption.map
          (fun r => r.2.length) = some 1) ∧
    ((executeTool cfg oracle (some (.str "sociologic_search_web"))
        (some (.obj [("query", .str "market")]))).toOption.map
          (fun r => r.2.length) = some 1) ∧
    ((executeTool cfg oracle (some (.str "sociologic_research_topic"))
        (some (.obj [("topic", .str "cloud")]))).toOption.map
          (fun r => r.2.length) = some 1) ∧
    ((executeTool cfg oracle (some (.str "sociologic_get_company_info"))
        (some (.obj [("url", .str "https://example.com")]))).toOption.map
          (fun r => r.2.length) = some 1) :=
  ⟨rfl, rfl, rfl, rfl, rfl, rfl, rfl, rfl, rfl, rfl, rfl, rfl, rfl, rfl, rfl,
   rfl, rfl, rfl, rfl, rfl, rfl, rfl, rfl, rfl, rfl, rfl, rfl, rfl, rfl, rfl,
   rfl, rfl, rfl, rfl, rfl, rfl, rfl⟩

-- ============================================
-- C7: authentication before backend calls (corrected)
-- ============================================

/-- C7 counterexample: a keyless request whose declared Content-Length
exceeds the ceiling is answered 413, not 401 — the size gate runs BEFORE the
authentication gate, refuting "for every request ... the response is
HTTP 401" as stated. -/
theorem C7_counterexample :
    (workerFetch none 0 jp₀ oracle₀
        { method := "POST", path := "/", contentLength := some "2000000" }).1.status = 413 ∧
    (workerFetch none 0 jp₀ oracle₀
        { method := "POST", path := "/", contentLength := some "2000000" }).1.status ≠ 401 := by
  refine ⟨rfl, ?_⟩
  rw [show (workerFetch none 0 jp₀ oracle₀
      { method := "POST", path := "/", contentLength := some "2000000" }).1.status = 413
    from rfl]
  decide

/-- C7 (amended): for every request other than the CORS preflight and the
discovery document whose declared Content-Length passes the early size gate,
if neither header yields a non-empty API key after trimming, the response is
HTTP 401 with the `AUTHENTICATION_REQUIRED` error and NO outbound backend
call is performed (the returned call list is empty). -/
theorem C7_authBeforeBackend (envApiUrl : Option String) (now : Nat)
    (jp : String → Option Json) (oracle : RestCall → FetchOutcome)
    (req : HttpRequest)
    (h1 : req.method ≠ "OPTIONS")
    (h2 : req.path ≠ "/.well-known/mcp/server-card.json")
    (h3 : clTooLarge req.contentLength = false)
    (h4 : extractApiKey req.xApiKey req.authorization = none) :
    workerFetch envApiUrl now jp oracle req =
      ({ status := 401, body := .errObj "AUTHENTICATION_REQUIRED" }, []) := by
  simp [workerFetch, h1, h2, h3, h4]

/-- Witness for C7: a keyless POST to `/` (no Content-Length) is answered
401 with no backend call. -/
theorem C7_authBeforeBackend_witness :
    workerFetch none 0 jp₀ oracle₀ { method := "POST", path := "/" } =
      ({ status := 401, body := .errObj "AUTHENTICATION_REQUIRED" }, []) :=
  C7_authBeforeBackend none 0 jp₀ oracle₀ { method := "POST", path := "/" }
    (by decide) (by decide) rfl rfl

-- ============================================
-- C1: the request size ceiling (corrected)
-- ============================================

/-- Sum of a mapped replicate-plus-singleton list, used to size the large
counterexample bodies without evaluating half a million list cells. -/
theorem sum_map_replicate_single (n : Nat) (c d : Char) (f : Char → Nat) :
    ((List.replicate n c ++ [d]).map f).sum = n * f c + f d := by
  rw [List.map_append, List.map_replicate, List.sum_append]
  simp [List.sum_replicate]

/-- The configuration the worker builds for an `X-API-Key: k` request under
the default API URL. -/
def cfgK : Config :=
  { apiUrl := stripTrailingSlash "https://www.sociologic.ai", apiKey := "k", now := 0 }

/-- A body of 524288 two-byte characters plus one ASCII character: 1048577
UTF-8 bytes (one over the ceiling) but only 524289 UTF-16 code units. -/
def bigBody : String := ⟨List.replicate 524288 'é' ++ ['a']⟩

/-- The UTF-16 length of `bigBody` (what `bodyText.length` measures). -/
theorem utf16Len_bigBody : utf16Len bigBody = 524289 := by
  show ((List.replicate 524288 'é' ++ ['a']).map
      (fun c => if c.toNat < 0x10000 then 1 else 2)).sum = 524289
  rw [sum_map_replicate_single 524288 'é' 'a'
      (fun c => if c.toNat < 0x10000 then 1 else 2)]
  decide

/-- The UTF-8 byte length of `bigBody` (the wire size): one over 1 MiB. -/
theorem byteLen_bigBody : byteLen bigBody = 1048577 := by
  show ((List.replicate 524288 'é' ++ ['a']).map
      (fun c => if c.toNat < 0x80 then 1 else if c.toNat < 0x800 then 2
                else if c.toNat < 0x10000 then 3 else 4)).sum = 1048577
  rw [sum_map_replicate_single 524288 'é' 'a'
      (fun c => if c.toNat < 0x80 then 1 else if c.toNat < 0x800 then 2
                else if c.toNat < 0x10000 then 3 else 4)]
  decide

/-- A POST to `/` with key `k` whose body fails `JSON.parse` and passes the
size check is answered with the parse error, not 413.  (Stated for an
arbitrary body so that proving it never evaluates the large counterexample
body.) -/
theorem workerFetch_parse400 (jp : String → Option Json)
    (oracle : RestCall → FetchOutcome) (body : String)
    (h : ¬ utf16Len body > MAX_REQUEST_SIZE) (hjp : jp body = none) :
    workerFetch none 0 jp oracle
        { method := "POST", path := "/", xApiKey := some "k", body := body } =
      ({ status := 400, body := .rpcErr .null (-32700) "Failed to parse JSON body" }, []) := by
  have hstep : workerFetch none 0 jp oracle
      { method := "POST", path := "/", xApiKey := some "k", body := body } =
      rpcStage cfgK jp oracle body := rfl
  rw [hstep]
  unfold rpcStage
  rw [if_neg h, hjp]

/-- C1 counterexample: a POST to `/` with an API key, no Content-Length
header, and a body whose BYTE length is exactly one over the 1 MiB ceiling
is NOT rejected with the oversized-body error: its UTF-16 length (which is
what `bodyText.length > MAX_REQUEST_SIZE` compares) is far below the
ceiling, so the request proceeds to JSON parsing (status 400 here, since the
body is not JSON — not the claimed 413). -/
theorem C1_counterexample :
    byteLen bigBody = MAX_REQUEST_SIZE + 1 ∧
    (workerFetch none 0 jp₀ oracle₀
        { method := "POST", path := "/", xApiKey := some "k", body := bigBody }).1.status = 400 ∧
    (workerFetch none 0 jp₀ oracle₀
        { method := "POST", path := "/", xApiKey := some "k", body := bigBody }).1.status ≠ 413 := by
  have h400 := workerFetch_parse400 jp₀ oracle₀ bigBody
    (by rw [utf16Len_bigBody]; decide) rfl
  refine ⟨?_, ?_, ?_⟩
  · rw [byteLen_bigBody]
    decide
  · rw [h400]
  · rw [h400]
    decide

/-- After the size check passes, no later branch of the RPC stage answers
413. -/
theorem rpcStage_status_ne_413 (cfg : Config) (jp : String → Option Json)
    (oracle : RestCall → FetchOutcome) (body : String)
    (h : ¬ utf16Len body > MAX_REQUEST_SIZE) :
    (rpcStage cfg jp oracle body).1.status ≠ 413 := by
  unfold rpcStage
  rw [if_neg h]
  generalize jp body = o
  cases o with
  | none => simp
  | some j =>
    cases j with
    | null => simp
    | bool b => simp
    | num n => simp
    | str s => simp
    | arr xs => simp
    | obj fields =>
      dsimp only
      split
      · split
        · split <;> simp
        · simp
      · simp

/-- All ASCII characters take one UTF-16 code unit and one UTF-8 byte, so
the two length measures agree on ASCII strings. -/
theorem ascii_len_eq (l : List Char)
    (h : l.all (fun c => decide (c.toNat < 128)) = true) :
    (l.map (fun c => if c.toNat < 0x10000 then 1 else 2)).sum =
    (l.map (fun c => if c.toNat < 0x80 then 1 else if c.toNat < 0x800 then 2
                     else if c.toNat < 0x10000 then 3 else 4)).sum := by
  induction l with
  | nil => rfl
  | cons c cs ih =>
    simp only [List.all_cons, Bool.and_eq_true, decide_eq_true_eq] at h
    obtain ⟨hc, hcs⟩ := h
    simp only [List.map_cons, List.sum_cons]
    rw [ih (by simpa using hcs), if_pos (by omega), if_pos (by omega)]

/-- C1 (amended): the ceiling is enforced in BYTES on the declared
Content-Length path (any request declaring more than 1 MiB is rejected 413
before anything else runs), but in UTF-16 CODE UNITS on the read-body path:
the body is rejected there exactly when `bodyText.length` exceeds the
ceiling, and otherwise no later branch answers 413.  For pure-ASCII bodies
the two measures coincide, so the original byte-level claim holds for them;
a non-ASCII body can exceed the byte ceiling yet be accepted (see the
counterexample). -/
theorem C1_sizeCeiling (envApiUrl : Option String) (now : Nat)
    (jp : String → Option Json) (oracle : RestCall → FetchOutcome)
    (req : HttpRequest) :
    (∀ s n, req.method ≠ "OPTIONS" → req.path ≠ "/.well-known/mcp/server-card.json" →
      req.contentLength = some s → jsParseInt s = some n →
      n > (MAX_REQUEST_SIZE : Int) →
      workerFetch envApiUrl now jp oracle req = (oversizedResponse, [])) ∧
    (req.method = "POST" → (req.path = "/" ∨ req.path = "/mcp" ∨ req.path = "/rpc") →
      clTooLarge req.contentLength = false →
      ∀ k, extractApiKey req.xApiKey req.authorization = some k →
        (utf16Len req.body > MAX_REQUEST_SIZE →
          workerFetch envApiUrl now jp oracle req = (oversizedResponse, [])) ∧
        (¬ utf16Len req.body > MAX_REQUEST_SIZE →
          (workerFetch envApiUrl now jp oracle req).1.status ≠ 413)) ∧
    (allAscii req.body = true → utf16Len req.body = byteLen req.body) := by
  refine ⟨?_, ?_, ?_⟩
  · intro s n h1 h2 hcl hpi hgt
    have hs : s ≠ "" := by
      intro he
      subst he
      rw [show jsParseInt "" = none from rfl] at hpi
      cases hpi
    have hcl' : clTooLarge req.contentLength = true := by
      simp [clTooLarge, hcl, hs, hpi, hgt]
    simp [workerFetch, h1, h2, hcl']
  · intro hm hp hcl k hk
    have h1 : req.method ≠ "OPTIONS" := by rw [hm]; decide
    constructor
    · intro hbig
      rcases hp with h | h | h <;>
        · simp [workerFetch, h1, hcl, hk, h, hm]
          unfold rpcStage
          rw [if_pos hbig]
    · intro hsmall
      have hne := rpcStage_status_ne_413
        { apiUrl := stripTrailingSlash (match envApiUrl with
            | some s => if s = "" then "https://www.sociologic.ai" else s
            | none => "https://www.sociologic.ai"),
          apiKey := k, now := now } jp oracle req.body hsmall
      rcases hp with h | h | h <;>
        · simp [workerFetch, h1, hcl, hk, h, hm]
          exact hne
  · intro ha
    have ha' : req.body.data.all (fun c => decide (c.toNat < 128)) = true := ha
    exact ascii_len_eq req.body.data ha'

/-- A pure-ASCII body exactly one byte over the ceiling. -/
def asciiOverBody : String := ⟨List.replicate 1048576 'a' ++ ['a']⟩

/-- The UTF-16 length (= byte length) of `asciiOverBody`. -/
theorem utf16Len_asciiOverBody : utf16Len asciiOverBody = 1048577 := by
  show ((List.replicate 1048576 'a' ++ ['a']).map
      (fun c => if c.toNat < 0x10000 then 1 else 2)).sum = 1048577
  rw [sum_map_replicate_single 1048576 'a' 'a'
      (fun c => if c.toNat < 0x10000 then 1 else 2)]
  decide

/-- Witness for C1 at concrete requests: a declared 2 MB Content-Length is
rejected 413; an ASCII body one byte over the ceiling is rejected 413 on the
read-body path; a small body passes the size gate. -/
theorem C1_sizeCeiling_witness :
    workerFetch none 0 jp₀ oracle₀
        { method := "POST", path := "/", xApiKey := some "k",
          contentLength := some "2000000" } = (oversizedResponse, []) ∧
    workerFetch none 0 jp₀ oracle₀
        { method := "POST", path := "/", xApiKey := some "k",
          body := asciiOverBody } = (oversizedResponse, []) ∧
    (workerFetch none 0 jp₀ oracle₀
        { method := "POST", path := "/", xApiKey := some "k",
          body := "nope" }).1.status ≠ 413 := by
  refine ⟨?_, ?_, ?_⟩
  · exact (C1_sizeCeiling none 0 jp₀ oracle₀
      { method := "POST", path := "/", xApiKey := some "k",
        contentLength := some "2000000" }).1 "2000000" 2000000
      (by decide) (by decide) rfl rfl (by decide)
  · exact ((C1_sizeCeiling none 0 jp₀ oracle₀
      { method := "POST", path := "/", xApiKey := some "k",
        body := asciiOverBody }).2.1 rfl (Or.inl rfl) rfl "k" rfl).1
      (by rw [utf16Len_asciiOverBody]; decide)
  · exact ((C1_sizeCeiling none 0 jp₀ oracle₀
      { method := "POST", path := "/", xApiKey := some "k",
        body := "nope" }).2.1 rfl (Or.inl rfl) rfl "k" rfl).2 (by decide)

end SignalRelay
